import Mathlib

/-!
Shallow embedding of `src/overlay_rviz_plugins/src/overlay_text_display.cpp`
(`overlay_rviz_plugins::OverlayTextDisplay`).

The display keeps a mutable rendering configuration (texture size, colors,
text, font, alignment, distances) together with a dirty flag
(`require_update_texture_`).  Incoming messages (`processMessage`), user
property edits (`updateTop`, `updateFont`, ...) and the per-tick render pass
(`update`) all act on this state.  External collaborators (the Ogre overlay
object, the Qt painter and the Qt font-metrics engine) are modelled by
explicit state fields (`overlay_exists`, `overlay_visible`,
`overlay_position`), by the `RenderOutput` record of drawing commands the
render pass emits, and by an oracle function for text measurement.
-/

namespace OverlayTextDisplay

/-- An RGBA color with integer channels, modelling `QColor` as the display
uses it (channels are produced by `int` conversions and `red()`/... reads). -/
structure Color where
  r : ℤ
  g : ℤ
  b : ℤ
  a : ℤ
deriving DecidableEq, Repr

/-- `HorizontalAlignment` enum of the display. -/
inductive HorizontalAlignment
  | LEFT
  | CENTER
  | RIGHT
deriving DecidableEq, Repr

/-- `VerticalAlignment` enum of the display. -/
inductive VerticalAlignment
  | TOP
  | CENTER
  | BOTTOM
deriving DecidableEq, Repr

/-- Modelled from the spec: the `OverlayText` message schema (the `.msg`
definition itself is not part of the C++ source file).  The spec gives
`action: ADD|DELETE`, alignment enums `LEFT|CENTER|RIGHT` and
`TOP|CENTER|BOTTOM`, `[0,1]` float color channels, and unsigned integer
size/distance fields.  Color channels are modelled as rationals: each channel
is a `float32` in `[0,1]`, and its product with `255.0` in `double`
arithmetic is exact (a 24-bit significand times 255 fits in 53 bits), so
rational arithmetic reproduces the C++ computation bit-for-bit. -/
structure MsgColor where
  r : ℚ
  g : ℚ
  b : ℚ
  a : ℚ
deriving DecidableEq, Repr

/-- Modelled from the spec: an `OverlayText` message.  Numeric constants for
the action and alignment tags are fixed below; the code only compares them
for equality, so only their distinctness (per field) matters. -/
structure OverlayTextMsg where
  action : ℕ
  width : ℕ
  height : ℕ
  horizontal_distance : ℕ
  vertical_distance : ℕ
  horizontal_alignment : ℕ
  vertical_alignment : ℕ
  bg_color : MsgColor
  fg_color : MsgColor
  line_width : ℕ
  text_size : ℕ
  font : String
  text : String
deriving DecidableEq, Repr

/-- Modelled from the spec: `OverlayText.ADD`. -/
def MSG_ADD : ℕ := 0

/-- Modelled from the spec: `OverlayText.DELETE`. -/
def MSG_DELETE : ℕ := 1

/-- Modelled from the spec: `OverlayText.LEFT`. -/
def MSG_LEFT : ℕ := 0

/-- Modelled from the spec: `OverlayText.CENTER`. -/
def MSG_CENTER : ℕ := 1

/-- Modelled from the spec: `OverlayText.RIGHT`. -/
def MSG_RIGHT : ℕ := 2

/-- Modelled from the spec: `OverlayText.TOP`. -/
def MSG_TOP : ℕ := 3

/-- Modelled from the spec: `OverlayText.BOTTOM`. -/
def MSG_BOTTOM : ℕ := 4

/-- Truncation of a rational toward zero, the C++ `double → int` conversion
applied when a message color channel (times `255.0`) is passed to the
`QColor(int, int, int, int)` constructor.  `Int.tdiv` is t-division, which
truncates toward zero. -/
def cppTruncToInt (x : ℚ) : ℤ :=
  Int.tdiv x.num (x.den : ℤ)

/-- One message color channel as stored into `QColor`:
`msg->..._color.c * 255.0` converted to `int`. -/
def msgChannelToInt (c : ℚ) : ℤ :=
  cppTruncToInt (c * 255)

/-- `QColor(msg_color.r * 255.0, msg_color.g * 255.0, msg_color.b * 255.0,
msg_color.a * 255.0)` from `processMessage`. -/
def qcolorOfMsgColor (c : MsgColor) : Color :=
  ⟨msgChannelToInt c.r, msgChannelToInt c.g, msgChannelToInt c.b, msgChannelToInt c.a⟩

/-- The mutable state of `OverlayTextDisplay` relevant to message processing,
property edits and rendering.  Field names follow the C++ members
(`texture_width_`, `require_update_texture_`, ...).  The external overlay
resource is modelled by `overlay_exists` (the `overlay_` pointer is non-null),
`overlay_visible` (`show()`/`hide()` calls) and `overlay_position` (the last
`setPosition(...)` call).  `enabled` models `isEnabled()`, and
`font_families` the `QFontDatabase` family list captured at construction. -/
@[ext]
structure DisplayState where
  texture_width : ℤ
  texture_height : ℤ
  bg_color : Color
  fg_color : Color
  text_size : ℤ
  line_width : ℤ
  text : String
  font : String
  require_update_texture : Bool
  horizontal_dist : ℤ
  vertical_dist : ℤ
  horizontal_alignment : HorizontalAlignment
  vertical_alignment : VerticalAlignment
  align_bottom : Bool
  invert_shadow : Bool
  overtake_position_properties : Bool
  overtake_fg_color_properties : Bool
  overtake_bg_color_properties : Bool
  font_families : List String
  enabled : Bool
  overlay_exists : Bool
  overlay_visible : Bool
  overlay_position : Option (ℤ × ℤ × HorizontalAlignment × VerticalAlignment)
deriving DecidableEq, Repr

/-- The overlay-creation block of `processMessage`: if `overlay_` is null, a
new `OverlayObject` is created and shown. -/
def ensureOverlay (s : DisplayState) : DisplayState :=
  if !s.overlay_exists then
    { s with overlay_exists := true, overlay_visible := true }
  else
    s

/-- The action block of `processMessage`: `DELETE` hides the overlay, `ADD`
shows it, any other action leaves visibility unchanged. -/
def applyAction (s : DisplayState) (action : ℕ) : DisplayState :=
  if s.overlay_exists then
    if action = MSG_DELETE then
      { s with overlay_visible := false }
    else if action = MSG_ADD then
      { s with overlay_visible := true }
    else
      s
  else
    s

/-- The `switch (msg->horizontal_alignment)` block of `processMessage`; a
value outside the three cases leaves the stored alignment unchanged (the
`switch` has no `default`). -/
def setHorizontalAlignment (s : DisplayState) (v : ℕ) : DisplayState :=
  if v = MSG_LEFT then
    { s with horizontal_alignment := HorizontalAlignment.LEFT }
  else if v = MSG_CENTER then
    { s with horizontal_alignment := HorizontalAlignment.CENTER }
  else if v = MSG_RIGHT then
    { s with horizontal_alignment := HorizontalAlignment.RIGHT }
  else
    s

/-- The `switch (msg->vertical_alignment)` block of `processMessage`. -/
def setVerticalAlignment (s : DisplayState) (v : ℕ) : DisplayState :=
  if v = MSG_BOTTOM then
    { s with vertical_alignment := VerticalAlignment.BOTTOM }
  else if v = MSG_CENTER then
    { s with vertical_alignment := VerticalAlignment.CENTER }
  else if v = MSG_TOP then
    { s with vertical_alignment := VerticalAlignment.TOP }
  else
    s

/-- The `if (!overtake_position_properties_)` block of `processMessage`. -/
def storePositionGroup (s : DisplayState) (msg : OverlayTextMsg) : DisplayState :=
  if !s.overtake_position_properties then
    { s with
      texture_width := (msg.width : ℤ),
      texture_height := (msg.height : ℤ),
      text_size := (msg.text_size : ℤ),
      horizontal_dist := (msg.horizontal_distance : ℤ),
      vertical_dist := (msg.vertical_distance : ℤ) }
  else
    s

/-- The `if (!overtake_bg_color_properties_)` block of `processMessage`. -/
def storeBgColorGroup (s : DisplayState) (msg : OverlayTextMsg) : DisplayState :=
  if !s.overtake_bg_color_properties then
    { s with bg_color := qcolorOfMsgColor msg.bg_color }
  else
    s

/-- The `if (!overtake_fg_color_properties_)` block of `processMessage`. -/
def storeFgColorGroup (s : DisplayState) (msg : OverlayTextMsg) : DisplayState :=
  if !s.overtake_fg_color_properties then
    { s with
      fg_color := qcolorOfMsgColor msg.fg_color,
      font := msg.font,
      line_width := (msg.line_width : ℤ) }
  else
    s

/-- The message-storing part of `processMessage`: text and alignments are
always overwritten; the position, background and foreground groups are
overwritten only when the corresponding overtake flag is off. -/
def storeMessage (s : DisplayState) (msg : OverlayTextMsg) : DisplayState :=
  storeFgColorGroup
    (storeBgColorGroup
      (storePositionGroup
        (setVerticalAlignment
          (setHorizontalAlignment { s with text := msg.text } msg.horizontal_alignment)
          msg.vertical_alignment)
        msg)
      msg)
    msg

/-- The trailing `overlay_->setPosition(...)` call of `processMessage`. -/
def applyPosition (s : DisplayState) : DisplayState :=
  if s.overlay_exists then
    { s with
      overlay_position :=
        some (s.horizontal_dist, s.vertical_dist, s.horizontal_alignment, s.vertical_alignment) }
  else
    s

/-- `OverlayTextDisplay::processMessage`: drop the message when the display
is disabled; otherwise create/show the overlay when missing, apply the
action's visibility effect, store the message fields subject to the overtake
flags, reposition the overlay, and set the dirty flag. -/
def processMessage (s : DisplayState) (msg : OverlayTextMsg) : DisplayState :=
  if !s.enabled then
    s
  else
    let s1 := ensureOverlay s
    let s2 := applyAction s1 msg.action
    let s3 := storeMessage s2 msg
    let s4 := applyPosition s3
    { s4 with require_update_texture := true }

/-- `OverlayTextDisplay::updateTop`: store the `top` property into
`vertical_dist_` and mark dirty iff position overtake is on. -/
def updateTop (s : DisplayState) (v : ℤ) : DisplayState :=
  let s1 := { s with vertical_dist := v }
  if s1.overtake_position_properties then
    { s1 with require_update_texture := true }
  else
    s1

/-- `OverlayTextDisplay::updateLeft`. -/
def updateLeft (s : DisplayState) (v : ℤ) : DisplayState :=
  let s1 := { s with horizontal_dist := v }
  if s1.overtake_position_properties then
    { s1 with require_update_texture := true }
  else
    s1

/-- `OverlayTextDisplay::updateWidth`. -/
def updateWidth (s : DisplayState) (v : ℤ) : DisplayState :=
  let s1 := { s with texture_width := v }
  if s1.overtake_position_properties then
    { s1 with require_update_texture := true }
  else
    s1

/-- `OverlayTextDisplay::updateHeight`. -/
def updateHeight (s : DisplayState) (v : ℤ) : DisplayState :=
  let s1 := { s with texture_height := v }
  if s1.overtake_position_properties then
    { s1 with require_update_texture := true }
  else
    s1

/-- `OverlayTextDisplay::updateTextSize`. -/
def updateTextSize (s : DisplayState) (v : ℤ) : DisplayState :=
  let s1 := { s with text_size := v }
  if s1.overtake_position_properties then
    { s1 with require_update_texture := true }
  else
    s1

/-- `OverlayTextDisplay::updateAlignBottom`: mark dirty only when the stored
value actually changes, then store the new value. -/
def updateAlignBottom (s : DisplayState) (v : Bool) : DisplayState :=
  let s1 :=
    if s.align_bottom ≠ v then
      { s with require_update_texture := true }
    else
      s
  { s1 with align_bottom := v }

/-- `OverlayTextDisplay::updateInvertShadow`: mark dirty only when the stored
value actually changes, then store the new value. -/
def updateInvertShadow (s : DisplayState) (v : Bool) : DisplayState :=
  let s1 :=
    if s.invert_shadow ≠ v then
      { s with require_update_texture := true }
    else
      s
  { s1 with invert_shadow := v }

/-- `OverlayTextDisplay::updateBGColor`: copy the property color's `r`, `g`,
`b` channels (alpha untouched) and mark dirty iff background overtake is on. -/
def updateBGColor (s : DisplayState) (c : Color) : DisplayState :=
  let s1 := { s with bg_color := { s.bg_color with r := c.r, g := c.g, b := c.b } }
  if s1.overtake_bg_color_properties then
    { s1 with require_update_texture := true }
  else
    s1

/-- `OverlayTextDisplay::updateBGAlpha`: `bg_color_.setAlpha(getFloat() * 255.0)`
(the float property is constrained to `[0,1]`); mark dirty iff background
overtake is on. -/
def updateBGAlpha (s : DisplayState) (a : ℚ) : DisplayState :=
  let s1 := { s with bg_color := { s.bg_color with a := cppTruncToInt (a * 255) } }
  if s1.overtake_bg_color_properties then
    { s1 with require_update_texture := true }
  else
    s1

/-- `OverlayTextDisplay::updateFGColor`. -/
def updateFGColor (s : DisplayState) (c : Color) : DisplayState :=
  let s1 := { s with fg_color := { s.fg_color with r := c.r, g := c.g, b := c.b } }
  if s1.overtake_fg_color_properties then
    { s1 with require_update_texture := true }
  else
    s1

/-- `OverlayTextDisplay::updateFGAlpha`. -/
def updateFGAlpha (s : DisplayState) (a : ℚ) : DisplayState :=
  let s1 := { s with fg_color := { s.fg_color with a := cppTruncToInt (a * 255) } }
  if s1.overtake_fg_color_properties then
    { s1 with require_update_texture := true }
  else
    s1

/-- `OverlayTextDisplay::updateLineWidth`. -/
def updateLineWidth (s : DisplayState) (v : ℤ) : DisplayState :=
  let s1 := { s with line_width := v }
  if s1.overtake_fg_color_properties then
    { s1 with require_update_texture := true }
  else
    s1

/-- `QList::operator[]` with a C++ `int` index: defined only for
`0 ≤ i < size` (out-of-range access is undefined behaviour, asserted in
debug builds). -/
def qlistAt (l : List String) (i : ℤ) : Option String :=
  if h : 0 ≤ i ∧ i.toNat < l.length then some (l.get ⟨i.toNat, h.2⟩) else none

/-- `OverlayTextDisplay::updateFont`: the guard is `font_index <
font_families_.size()`; when it fails, log an error and return with the state
untouched.  When it holds, the code indexes `font_families_[font_index]`,
which for a negative index is an out-of-range `QList` access — modelled as
`none`.  On success, store the family name and mark dirty iff foreground
overtake is on. -/
def updateFont (s : DisplayState) (font_index : ℤ) : Option DisplayState :=
  if font_index < (s.font_families.length : ℤ) then
    match qlistAt s.font_families font_index with
    | some fam =>
        let s1 := { s with font := fam }
        some (if s1.overtake_fg_color_properties then
                { s1 with require_update_texture := true }
              else
                s1)
    | none => none
  else
    some s

/-- A render tick that actually ran clears the dirty flag; used to phrase
"the second application of an edit" starting from a freshly rendered state. -/
def clearDirty (s : DisplayState) : DisplayState :=
  { s with require_update_texture := false }

/-! ### The compositor (`OverlayTextDisplay::update`) -/

/-- Drop everything up to and including the first `>` ; `none` when there is
no `>` at all.  This is how far the greedy `[^>]*` of Qt's `<[^>]*>` regex
reaches: a match starting at a `<` always ends at the first following `>`. -/
def dropThroughGt : List Char → Option (List Char)
  | [] => none
  | c :: rest => if c = '>' then some rest else dropThroughGt rest

/-- A character the ECMAScript `.` of `std::regex` does not match (the
LineTerminator class: LF, CR, LS, PS). -/
def isEcmaLineTerminator (c : Char) : Bool :=
  c = '\n' || c = '\r' || c = '\u2028' || c = '\u2029'

/-- Drop everything up to and including the first `;` ; `none` when a line
terminator (which ECMAScript `.` cannot match) or the end of the string
comes first.  The lazy `.+?` of `color:.+?;` makes a match starting at
`color:` end at the first such `;` that leaves `.+?` nonempty. -/
def dropThroughSemicolon : List Char → Option (List Char)
  | [] => none
  | c :: rest =>
    if c = ';' then some rest
    else if isEcmaLineTerminator c then none
    else dropThroughSemicolon rest

/-- `QString::remove(QRegExp("<[^>]*>"))` on a character list, with explicit
fuel (one unit per character suffices, each step consumes at least one
character).  Removes every non-overlapping leftmost match of `<` followed by
non-`>` characters followed by `>`. -/
def stripTagsAuxF : ℕ → List Char → List Char
  | 0, l => l
  | _ + 1, [] => []
  | fuel + 1, c :: rest =>
    if c = '<' then
      match dropThroughGt rest with
      | some rest2 => stripTagsAuxF fuel rest2
      | none => c :: rest
    else
      c :: stripTagsAuxF fuel rest

/-- `only_wrapped_text.text().remove(QRegExp("<[^>]*>"))` from the
align-bottom branch of `update`. -/
def stripHtmlTags (s : String) : String :=
  ⟨stripTagsAuxF s.data.length s.data⟩

/-- `std::regex_replace(text, std::regex("color:.+?;"), "")` on a character
list with explicit fuel: remove every non-overlapping leftmost match of
`color:` followed lazily by at least one `.`-matchable character and a
terminating `;`.  ECMAScript `.` does not match line terminators, so a
`color:` occurrence whose first following `;` lies past a line terminator is
left untouched and scanning resumes one character further. -/
def stripColorDeclsAuxF : ℕ → List Char → List Char
  | 0, l => l
  | _ + 1, [] => []
  | fuel + 1, l =>
    match l with
    | 'c' :: 'o' :: 'l' :: 'o' :: 'r' :: ':' :: d :: rest =>
      if isEcmaLineTerminator d then
        'c' :: stripColorDeclsAuxF fuel ('o' :: 'l' :: 'o' :: 'r' :: ':' :: d :: rest)
      else
        match dropThroughSemicolon rest with
        | some rest2 => stripColorDeclsAuxF fuel rest2
        | none => 'c' :: stripColorDeclsAuxF fuel ('o' :: 'l' :: 'o' :: 'r' :: ':' :: d :: rest)
    | c :: rest => c :: stripColorDeclsAuxF fuel rest
    | [] => []

/-- The `formatted_text_` computation of `update`: strip `color:...;` style
declarations from the literal text so the shadow is not colored by them. -/
def stripColorDecls (s : String) : String :=
  ⟨stripColorDeclsAuxF s.data.length s.data⟩

/-- `boost::algorithm::replace_all_copy(text, "\n", "<br >")`. -/
def replaceNewlines (s : String) : String :=
  ⟨s.data.flatMap (fun c => if c = '\n' then ['<', 'b', 'r', ' ', '>'] else [c])⟩

/-- `boost::format("<span style=\"color: rgba(%2%, %3%, %4%, %5%)\">%1%</span>")`
applied to a text and the four channels of a color. -/
def colorWrap (c : Color) (t : String) : String :=
  "<span style=\"color: rgba(" ++ toString c.r ++ ", " ++ toString c.g ++ ", " ++
    toString c.b ++ ", " ++ toString c.a ++ ")\">" ++ t ++ "</span>"

/-- The shadow color of `update`: pure white when `invert_shadow_`, else pure
black, with alpha forced to the foreground alpha. -/
def shadowColor (s : DisplayState) : Color :=
  let base : Color := if s.invert_shadow then ⟨255, 255, 255, 255⟩ else ⟨0, 0, 0, 255⟩
  { base with a := s.fg_color.a }

/-- One `painter.drawStaticText(x, y, ...)` call: position, the HTML content
of the `QStaticText`, and the pen active at the call. -/
structure DrawCmd where
  x : ℤ
  y : ℤ
  content : String
  pen : Color
deriving DecidableEq, Repr

/-- Everything one render pass emits towards the external collaborators:
the `updateTextureSize` request, the background fill of the buffer
(`buffer.getQImage(*overlay_, bg_color_)`), the optional font selection,
the pen stroke width, the `drawStaticText` calls in order, and the final
`setDimensions` call. -/
structure RenderOutput where
  texture_size_request : ℤ × ℤ
  fill : Color
  font_set : Option (String × ℤ)
  pen_width : ℤ
  draws : List DrawCmd
  final_dims : ℕ × ℕ
deriving DecidableEq, Repr

/-- The drawing block of `OverlayTextDisplay::update`, given the actual
texture size `w × h` reported by the overlay resource (which may differ from
the requested size) and an oracle `metrics` for
`QFontMetrics::boundingRect(0, 0, w, h, TextWordWrap | AlignLeft | AlignTop,
text).height()` under the current font. -/
def composite (s : DisplayState) (w h : ℕ) (metrics : String → ℕ → ℕ → ℤ) :
    RenderOutput :=
  let font_set : Option (String × ℤ) :=
    if s.text_size ≠ 0 then
      some (if s.font.length > 0 then s.font else "Liberation Sans", s.text_size)
    else
      none
  let pen_width : ℤ := max s.line_width 1
  if s.text.length > 0 then
    let shadow_color := shadowColor s
    let color_wrapped_text := colorWrap s.fg_color s.text
    let formatted_text := stripColorDecls s.text
    let color_wrapped_shadow := colorWrap shadow_color formatted_text
    let static_text_content := replaceNewlines color_wrapped_text
    let static_shadow_content := replaceNewlines color_wrapped_shadow
    let draws :=
      if !s.align_bottom then
        [⟨1, 1, static_shadow_content, shadow_color⟩,
         ⟨0, 0, static_text_content, shadow_color⟩]
      else
        let measured := stripHtmlTags color_wrapped_text
        let textHeight := metrics measured w h
        [⟨1, (h : ℤ) - textHeight + 1, static_shadow_content, shadow_color⟩,
         ⟨0, (h : ℤ) - textHeight, static_text_content, shadow_color⟩]
    { texture_size_request := (s.texture_width, s.texture_height),
      fill := s.bg_color,
      font_set := font_set,
      pen_width := pen_width,
      draws := draws,
      final_dims := (w, h) }
  else
    { texture_size_request := (s.texture_width, s.texture_height),
      fill := s.bg_color,
      font_set := font_set,
      pen_width := pen_width,
      draws := [],
      final_dims := (w, h) }

/-- `OverlayTextDisplay::update` (the per-tick render pass): bail out — with
no state change — unless the dirty flag is set, the display is enabled and
the overlay resource exists; otherwise run the compositor once and clear the
dirty flag.  `w × h` is the texture size the overlay resource reports after
`updateTextureSize` (the resource may clamp the request). -/
def update (s : DisplayState) (w h : ℕ) (metrics : String → ℕ → ℕ → ℤ) :
    DisplayState × Option RenderOutput :=
  if !s.require_update_texture then
    (s, none)
  else if !s.enabled then
    (s, none)
  else if !s.overlay_exists then
    (s, none)
  else
    ({ s with require_update_texture := false }, some (composite s w h metrics))

/-! ### Concrete fixtures for witnesses and counterexamples -/

/-- A concrete display state: constructor defaults of `OverlayTextDisplay`
(texture `0 × 0`, transparent black background, opaque white foreground,
text size 14, line width 2, empty text and font), display enabled, overlay
existing and shown, all overtake flags off. -/
def exBase : DisplayState :=
  { texture_width := 0
    texture_height := 0
    bg_color := ⟨0, 0, 0, 0⟩
    fg_color := ⟨255, 255, 255, 255⟩
    text_size := 14
    line_width := 2
    text := ""
    font := ""
    require_update_texture := false
    horizontal_dist := 0
    vertical_dist := 0
    horizontal_alignment := HorizontalAlignment.LEFT
    vertical_alignment := VerticalAlignment.TOP
    align_bottom := false
    invert_shadow := false
    overtake_position_properties := false
    overtake_fg_color_properties := false
    overtake_bg_color_properties := false
    font_families := ["DejaVu Sans Mono"]
    enabled := true
    overlay_exists := true
    overlay_visible := true
    overlay_position := none }

/-- A concrete message (the two-line scenario of the spec, with integral
color channels so that every arithmetic step evaluates). -/
def exMsg : OverlayTextMsg :=
  { action := MSG_ADD
    width := 200
    height := 100
    horizontal_distance := 0
    vertical_distance := 0
    horizontal_alignment := MSG_LEFT
    vertical_alignment := MSG_TOP
    bg_color := ⟨0, 0, 0, 1⟩
    fg_color := ⟨1, 1, 1, 1⟩
    line_width := 2
    text_size := 14
    font := ""
    text := "hello\nworld" }

end OverlayTextDisplay

namespace OverlayTextDisplay

/-! ### Helper lemmas -/

theorem ensureOverlay_eq (s : DisplayState) :
    ensureOverlay s =
      { s with
        overlay_exists := true,
        overlay_visible := if s.overlay_exists then s.overlay_visible else true } := by
  unfold ensureOverlay
  split_ifs with h <;> ext <;> simp_all

theorem applyAction_eq (s : DisplayState) (a : ℕ) :
    applyAction s a =
      { s with
        overlay_visible :=
          if s.overlay_exists then
            if a = MSG_DELETE then false
            else if a = MSG_ADD then true
            else s.overlay_visible
          else s.overlay_visible } := by
  unfold applyAction
  split_ifs <;> ext <;> simp_all

theorem setHorizontalAlignment_eq (s : DisplayState) (v : ℕ) :
    setHorizontalAlignment s v =
      { s with
        horizontal_alignment :=
          if v = MSG_LEFT then HorizontalAlignment.LEFT
          else if v = MSG_CENTER then HorizontalAlignment.CENTER
          else if v = MSG_RIGHT then HorizontalAlignment.RIGHT
          else s.horizontal_alignment } := by
  unfold setHorizontalAlignment
  split_ifs <;> ext <;> simp_all

theorem setVerticalAlignment_eq (s : DisplayState) (v : ℕ) :
    setVerticalAlignment s v =
      { s with
        vertical_alignment :=
          if v = MSG_BOTTOM then VerticalAlignment.BOTTOM
          else if v = MSG_CENTER then VerticalAlignment.CENTER
          else if v = MSG_TOP then VerticalAlignment.TOP
          else s.vertical_alignment } := by
  unfold setVerticalAlignment
  split_ifs <;> ext <;> simp_all

theorem storePositionGroup_eq (s : DisplayState) (msg : OverlayTextMsg) :
    storePositionGroup s msg =
      { s with
        texture_width := if s.overtake_position_properties then s.texture_width else (msg.width : ℤ),
        texture_height := if s.overtake_position_properties then s.texture_height else (msg.height : ℤ),
        text_size := if s.overtake_position_properties then s.text_size else (msg.text_size : ℤ),
        horizontal_dist :=
          if s.overtake_position_properties then s.horizontal_dist else (msg.horizontal_distance : ℤ),
        vertical_dist :=
          if s.overtake_position_properties then s.vertical_dist else (msg.vertical_distance : ℤ) } := by
  unfold storePositionGroup
  split_ifs <;> ext <;> simp_all

theorem storeBgColorGroup_eq (s : DisplayState) (msg : OverlayTextMsg) :
    storeBgColorGroup s msg =
      { s with
        bg_color :=
          if s.overtake_bg_color_properties then s.bg_color else qcolorOfMsgColor msg.bg_color } := by
  unfold storeBgColorGroup
  split_ifs <;> ext <;> simp_all

theorem storeFgColorGroup_eq (s : DisplayState) (msg : OverlayTextMsg) :
    storeFgColorGroup s msg =
      { s with
        fg_color :=
          if s.overtake_fg_color_properties then s.fg_color else qcolorOfMsgColor msg.fg_color,
        font := if s.overtake_fg_color_properties then s.font else msg.font,
        line_width :=
          if s.overtake_fg_color_properties then s.line_width else (msg.line_width : ℤ) } := by
  unfold storeFgColorGroup
  split_ifs <;> ext <;> simp_all

theorem applyPosition_eq (s : DisplayState) :
    applyPosition s =
      { s with
        overlay_position :=
          if s.overlay_exists then
            some (s.horizontal_dist, s.vertical_dist, s.horizontal_alignment, s.vertical_alignment)
          else s.overlay_position } := by
  unfold applyPosition
  split_ifs <;> ext <;> simp_all


/-! ### Claim theorems -/

/-- C4: a message delivered while the display is disabled is ignored
entirely: `processMessage` returns the state unchanged (all RenderConfig
fields and the dirty flag included). -/
theorem c4_disabled_message_ignored (s : DisplayState) (msg : OverlayTextMsg)
    (hs : s.enabled = false) :
    processMessage s msg = s := by
  simp [processMessage, hs]

/-- C4 witness: a concrete disabled state and message. -/
theorem c4_disabled_message_ignored_witness :
    ({ exBase with enabled := false } : DisplayState).enabled = false ∧
    processMessage { exBase with enabled := false } exMsg = { exBase with enabled := false } :=
  ⟨rfl, c4_disabled_message_ignored { exBase with enabled := false } exMsg rfl⟩

/-- C3: while the display is enabled, a group whose overtake flag is on keeps
every one of its fields bit-identical across a message application —
position: `texture_width`, `texture_height`, `text_size`,
`horizontal_dist`, `vertical_dist`; foreground: `fg_color`, `font`,
`line_width`; background: `bg_color`. -/
theorem c3_overtaken_groups_preserved (s : DisplayState) (msg : OverlayTextMsg)
    (hs : s.enabled = true) :
    (s.overtake_position_properties = true →
      (processMessage s msg).texture_width = s.texture_width ∧
      (processMessage s msg).texture_height = s.texture_height ∧
      (processMessage s msg).text_size = s.text_size ∧
      (processMessage s msg).horizontal_dist = s.horizontal_dist ∧
      (processMessage s msg).vertical_dist = s.vertical_dist) ∧
    (s.overtake_fg_color_properties = true →
      (processMessage s msg).fg_color = s.fg_color ∧
      (processMessage s msg).font = s.font ∧
      (processMessage s msg).line_width = s.line_width) ∧
    (s.overtake_bg_color_properties = true →
      (processMessage s msg).bg_color = s.bg_color) := by
  refine ⟨fun h => ?_, fun h => ?_, fun h => ?_⟩ <;>
    simp [processMessage, storeMessage, hs, h, ensureOverlay_eq, applyAction_eq,
          setHorizontalAlignment_eq, setVerticalAlignment_eq, storePositionGroup_eq,
          storeBgColorGroup_eq, storeFgColorGroup_eq, applyPosition_eq]

/-- C3 witness: all three overtake flags on, a message that tries to change
every group. -/
theorem c3_overtaken_groups_preserved_witness :
    ({ exBase with
        overtake_position_properties := true,
        overtake_fg_color_properties := true,
        overtake_bg_color_properties := true } : DisplayState).enabled = true ∧
    ({ exBase with
        overtake_position_properties := true,
        overtake_fg_color_properties := true,
        overtake_bg_color_properties := true } : DisplayState).overtake_position_properties
      = true ∧
    (processMessage
        { exBase with
          overtake_position_properties := true,
          overtake_fg_color_properties := true,
          overtake_bg_color_properties := true } exMsg).texture_width
      = ({ exBase with
          overtake_position_properties := true,
          overtake_fg_color_properties := true,
          overtake_bg_color_properties := true } : DisplayState).texture_width :=
  ⟨rfl, rfl,
    ((c3_overtaken_groups_preserved
        { exBase with
          overtake_position_properties := true,
          overtake_fg_color_properties := true,
          overtake_bg_color_properties := true } exMsg rfl).1 rfl).1⟩

/-- C1 counterexample: an enabled display processing a `DELETE` message does
not leave the RenderConfig fields unchanged — the message text is stored
even on `DELETE`, so a `DELETE` carrying `"new"` over stored text `"old"`
changes the `text` field. -/
theorem c1_counterexample :
    ({ exBase with text := "old" } : DisplayState).enabled = true ∧
    ({ exMsg with action := MSG_DELETE, text := "new" } : OverlayTextMsg).action = MSG_DELETE ∧
    (processMessage { exBase with text := "old" }
        { exMsg with action := MSG_DELETE, text := "new" }).text
      ≠ ({ exBase with text := "old" } : DisplayState).text := by
  refine ⟨rfl, rfl, ?_⟩
  decide

/-- C1 (amended): a `DELETE` message processed while the display is enabled
does invoke `hide()` on the overlay resource (the overlay ends up existing
and hidden), but the RenderConfig fields are not left alone: the message is
stored exactly as for any other message — `text` is overwritten, recognized
alignment values overwrite the stored alignments, every group whose overtake
flag is off is overwritten from the message, the dirty flag is set, and the
whole resulting state equals the one an `ADD` message would produce except
that the overlay is hidden instead of shown. -/
theorem c1_delete_hides_but_message_stored (s : DisplayState) (msg : OverlayTextMsg)
    (hs : s.enabled = true) (ha : msg.action = MSG_DELETE) :
    (processMessage s msg).overlay_exists = true ∧
    (processMessage s msg).overlay_visible = false ∧
    (processMessage s msg).text = msg.text ∧
    (processMessage s msg).require_update_texture = true ∧
    (processMessage s msg).horizontal_alignment =
      (if msg.horizontal_alignment = MSG_LEFT then HorizontalAlignment.LEFT
       else if msg.horizontal_alignment = MSG_CENTER then HorizontalAlignment.CENTER
       else if msg.horizontal_alignment = MSG_RIGHT then HorizontalAlignment.RIGHT
       else s.horizontal_alignment) ∧
    (processMessage s msg).vertical_alignment =
      (if msg.vertical_alignment = MSG_BOTTOM then VerticalAlignment.BOTTOM
       else if msg.vertical_alignment = MSG_CENTER then VerticalAlignment.CENTER
       else if msg.vertical_alignment = MSG_TOP then VerticalAlignment.TOP
       else s.vertical_alignment) ∧
    (s.overtake_position_properties = false →
      (processMessage s msg).texture_width = (msg.width : ℤ) ∧
      (processMessage s msg).texture_height = (msg.height : ℤ) ∧
      (processMessage s msg).text_size = (msg.text_size : ℤ) ∧
      (processMessage s msg).horizontal_dist = (msg.horizontal_distance : ℤ) ∧
      (processMessage s msg).vertical_dist = (msg.vertical_distance : ℤ)) ∧
    (s.overtake_bg_color_properties = false →
      (processMessage s msg).bg_color = qcolorOfMsgColor msg.bg_color) ∧
    (s.overtake_fg_color_properties = false →
      (processMessage s msg).fg_color = qcolorOfMsgColor msg.fg_color ∧
      (processMessage s msg).font = msg.font ∧
      (processMessage s msg).line_width = (msg.line_width : ℤ)) ∧
    processMessage s msg =
      { processMessage s { msg with action := MSG_ADD } with overlay_visible := false } := by
  refine ⟨?_, ?_, ?_, ?_, ?_, ?_, fun h => ?_, fun h => ?_, fun h => ?_, ?_⟩ <;>
    simp [processMessage, storeMessage, hs, ha, *, ensureOverlay_eq, applyAction_eq,
          setHorizontalAlignment_eq, setVerticalAlignment_eq, storePositionGroup_eq,
          storeBgColorGroup_eq, storeFgColorGroup_eq, applyPosition_eq]

/-- C1 witness: concrete enabled state and `DELETE` message; the overlay is
hidden, and the state equals the `ADD`-processed one with visibility forced
off. -/
theorem c1_delete_hides_but_message_stored_witness :
    exBase.enabled = true ∧
    ({ exMsg with action := MSG_DELETE } : OverlayTextMsg).action = MSG_DELETE ∧
    (processMessage exBase { exMsg with action := MSG_DELETE }).overlay_visible = false ∧
    processMessage exBase { exMsg with action := MSG_DELETE } =
      { processMessage exBase { { exMsg with action := MSG_DELETE } with action := MSG_ADD } with
        overlay_visible := false } :=
  ⟨rfl, rfl,
    (c1_delete_hides_but_message_stored exBase { exMsg with action := MSG_DELETE } rfl rfl).2.1,
    (c1_delete_hides_but_message_stored exBase { exMsg with action := MSG_DELETE } rfl
        rfl).2.2.2.2.2.2.2.2.2⟩

/-- C10: a message whose action is neither `ADD` nor `DELETE`, processed
while the display is enabled, behaves exactly like the same message with
action `ADD` except for visibility: a missing overlay is created and shown,
an existing overlay keeps its previous visibility.  In particular text,
alignments, the non-overtaken groups, the reposition side effect and the
dirty flag are all processed as for `ADD`. -/
theorem c10_unknown_action_processed_like_add (s : DisplayState) (msg : OverlayTextMsg)
    (hs : s.enabled = true) (hA : msg.action ≠ MSG_ADD) (hD : msg.action ≠ MSG_DELETE) :
    (processMessage s msg).overlay_exists = true ∧
    (s.overlay_exists = false → (processMessage s msg).overlay_visible = true) ∧
    (s.overlay_exists = true → (processMessage s msg).overlay_visible = s.overlay_visible) ∧
    processMessage s msg =
      { processMessage s { msg with action := MSG_ADD } with
        overlay_visible := if s.overlay_exists then s.overlay_visible else true } := by
  refine ⟨?_, fun h => ?_, fun h => ?_, ?_⟩ <;>
    simp [processMessage, storeMessage, hs, hA, hD, *, ensureOverlay_eq, applyAction_eq,
          setHorizontalAlignment_eq, setVerticalAlignment_eq, storePositionGroup_eq,
          storeBgColorGroup_eq, storeFgColorGroup_eq, applyPosition_eq]

/-- C10 witness: a concrete message with an unknown action value processed
on a state whose overlay exists and is hidden. -/
theorem c10_unknown_action_processed_like_add_witness :
    ({ exBase with overlay_visible := false } : DisplayState).enabled = true ∧
    ({ exMsg with action := 7 } : OverlayTextMsg).action ≠ MSG_ADD ∧
    ({ exMsg with action := 7 } : OverlayTextMsg).action ≠ MSG_DELETE ∧
    processMessage { exBase with overlay_visible := false } { exMsg with action := 7 } =
      { processMessage { exBase with overlay_visible := false }
          { { exMsg with action := 7 } with action := MSG_ADD } with
        overlay_visible :=
          if ({ exBase with overlay_visible := false } : DisplayState).overlay_exists then
            ({ exBase with overlay_visible := false } : DisplayState).overlay_visible
          else true } :=
  ⟨rfl, by decide, by decide,
    (c10_unknown_action_processed_like_add { exBase with overlay_visible := false }
      { exMsg with action := 7 } rfl (by decide) (by decide)).2.2.2⟩

/-- C5: the render pass runs exactly when the dirty flag is set, the display
is enabled and the overlay resource exists; when it runs, the only state
change is the unconditional clearing of the dirty flag (no condition on the
text, so also when the text is empty); when any of the three conditions
fails the state — the dirty flag included — is left untouched, so the render
is retried on a later tick. -/
theorem c5_render_gating (s : DisplayState) (w h : ℕ) (metrics : String → ℕ → ℕ → ℤ) :
    ((update s w h metrics).2.isSome = true ↔
      (s.require_update_texture = true ∧ s.enabled = true ∧ s.overlay_exists = true)) ∧
    ((s.require_update_texture = true ∧ s.enabled = true ∧ s.overlay_exists = true) →
      (update s w h metrics).1 = { s with require_update_texture := false }) ∧
    (¬(s.require_update_texture = true ∧ s.enabled = true ∧ s.overlay_exists = true) →
      (update s w h metrics).1 = s) := by
  unfold update
  split_ifs <;> simp_all

/-- C5 witness: a dirty, enabled state with an existing overlay and empty
text renders and has its dirty flag cleared. -/
theorem c5_render_gating_witness :
    (({ exBase with require_update_texture := true } : DisplayState).require_update_texture = true ∧
     ({ exBase with require_update_texture := true } : DisplayState).enabled = true ∧
     ({ exBase with require_update_texture := true } : DisplayState).overlay_exists = true) ∧
    (update { exBase with require_update_texture := true } 128 128 (fun _ _ _ => 0)).1 =
      { { exBase with require_update_texture := true } with require_update_texture := false } :=
  ⟨⟨rfl, rfl, rfl⟩,
    (c5_render_gating { exBase with require_update_texture := true } 128 128
        (fun _ _ _ => 0)).2.1 ⟨rfl, rfl, rfl⟩⟩

/-- C8: with empty text the compositor's output is a pure background fill:
the buffer is filled with the background RGBA color and no draw command at
all is emitted. -/
theorem c8_empty_text_pure_background (s : DisplayState) (w h : ℕ)
    (metrics : String → ℕ → ℕ → ℤ) (ht : s.text = "") :
    (composite s w h metrics).fill = s.bg_color ∧
    (composite s w h metrics).draws = [] := by
  unfold composite
  simp [ht]

/-- C8 witness: the base state has empty text. -/
theorem c8_empty_text_pure_background_witness :
    exBase.text = "" ∧
    ((composite exBase 200 100 (fun _ _ _ => 0)).fill = exBase.bg_color ∧
     (composite exBase 200 100 (fun _ _ _ => 0)).draws = []) :=
  ⟨rfl, c8_empty_text_pure_background exBase 200 100 (fun _ _ _ => 0) rfl⟩

/-- Sanity: stripping markup from the color-wrapped text recovers the raw
text when the raw text itself contains no tags (here on the spec's two-line
scenario text), so the string the align-bottom branch measures is the
unstyled, markup-stripped text. -/
theorem stripHtmlTags_colorWrap_example :
    stripHtmlTags (colorWrap ⟨255, 255, 255, 255⟩ "hello\nworld") = "hello\nworld" := by
  decide

/-- C9: with non-empty text, the top-anchored branch draws the shadow
fragment at `(1, 1)` and the main fragment at `(0, 0)`; the bottom-anchored
branch measures the height `H` of the markup-stripped text (the color-wrapped
text with every `<...>` tag removed — for tag-free raw text this is the raw
text itself, see `stripHtmlTags_colorWrap_example`) word-wrapped at buffer
width `w`, and draws the shadow at `(1, h − H + 1)` and the main fragment at
`(0, h − H)` for buffer height `h`. -/
theorem c9_draw_positions (s : DisplayState) (w h : ℕ)
    (metrics : String → ℕ → ℕ → ℤ) (ht : 0 < s.text.length) :
    (s.align_bottom = false →
      (composite s w h metrics).draws =
        [⟨1, 1, replaceNewlines (colorWrap (shadowColor s) (stripColorDecls s.text)),
          shadowColor s⟩,
         ⟨0, 0, replaceNewlines (colorWrap s.fg_color s.text), shadowColor s⟩]) ∧
    (s.align_bottom = true →
      (composite s w h metrics).draws =
        [⟨1, (h : ℤ) - metrics (stripHtmlTags (colorWrap s.fg_color s.text)) w h + 1,
          replaceNewlines (colorWrap (shadowColor s) (stripColorDecls s.text)),
          shadowColor s⟩,
         ⟨0, (h : ℤ) - metrics (stripHtmlTags (colorWrap s.fg_color s.text)) w h,
          replaceNewlines (colorWrap s.fg_color s.text), shadowColor s⟩]) := by
  refine ⟨fun hb => ?_, fun hb => ?_⟩ <;>
    · unfold composite
      simp [ht, hb]

/-- C9 witness: the two-line scenario text, bottom-aligned, with a metrics
oracle reporting a text-block height of 30 in a 200 × 100 buffer: the shadow
lands at `y = 71` and the main text at `y = 70 = 100 − 30`. -/
theorem c9_draw_positions_witness :
    0 < ({ exBase with text := "hello\nworld", align_bottom := true } :
          DisplayState).text.length ∧
    (composite { exBase with text := "hello\nworld", align_bottom := true } 200 100
        (fun _ _ _ => 30)).draws =
      [⟨1, (100 : ℤ) - 30 + 1,
        replaceNewlines (colorWrap
          (shadowColor { exBase with text := "hello\nworld", align_bottom := true })
          (stripColorDecls "hello\nworld")),
        shadowColor { exBase with text := "hello\nworld", align_bottom := true }⟩,
       ⟨0, (100 : ℤ) - 30,
        replaceNewlines (colorWrap ⟨255, 255, 255, 255⟩ "hello\nworld"),
        shadowColor { exBase with text := "hello\nworld", align_bottom := true }⟩] :=
  ⟨by decide,
    (c9_draw_positions { exBase with text := "hello\nworld", align_bottom := true } 200 100
        (fun _ _ _ => 30) (by decide)).2 rfl⟩

/-- C2 counterexample: with position overtake on, re-applying the `top` edit
with the value the property already holds (5), right after a render cleared
the dirty flag, sets the dirty flag again — the claimed no-op idempotence
fails for group-owned property edits while their overtake flag is on. -/
theorem c2_counterexample :
    (updateTop { exBase with overtake_position_properties := true } 5).vertical_dist = 5 ∧
    (updateTop
        (clearDirty (updateTop { exBase with overtake_position_properties := true } 5))
        5).require_update_texture = true := by
  constructor <;> decide

/-- C2 (amended): applying the same property edit twice in a row (with a
render clearing the dirty flag in between) leaves the dirty flag clear on
the second application only for `updateAlignBottom` and `updateInvertShadow`
(which compare against the stored value); every group-owned edit instead
sets the dirty flag on the second application exactly when its group's
overtake flag is on — value changes are not consulted.  For `updateFont`,
whose dirty behaviour does not read the stored font at all, the same holds
on any dirty-cleared state: an in-range index sets dirty iff foreground
overtake is on, an out-of-range index never sets it. -/
theorem c2_amended_dirty_on_second_application (s : DisplayState) (v : ℤ) (b : Bool)
    (c : Color) (a : ℚ) :
    (updateAlignBottom (clearDirty (updateAlignBottom s b)) b).require_update_texture = false ∧
    (updateInvertShadow (clearDirty (updateInvertShadow s b)) b).require_update_texture = false ∧
    (updateTop (clearDirty (updateTop s v)) v).require_update_texture
      = s.overtake_position_properties ∧
    (updateLeft (clearDirty (updateLeft s v)) v).require_update_texture
      = s.overtake_position_properties ∧
    (updateWidth (clearDirty (updateWidth s v)) v).require_update_texture
      = s.overtake_position_properties ∧
    (updateHeight (clearDirty (updateHeight s v)) v).require_update_texture
      = s.overtake_position_properties ∧
    (updateTextSize (clearDirty (updateTextSize s v)) v).require_update_texture
      = s.overtake_position_properties ∧
    (updateLineWidth (clearDirty (updateLineWidth s v)) v).require_update_texture
      = s.overtake_fg_color_properties ∧
    (updateBGColor (clearDirty (updateBGColor s c)) c).require_update_texture
      = s.overtake_bg_color_properties ∧
    (updateBGAlpha (clearDirty (updateBGAlpha s a)) a).require_update_texture
      = s.overtake_bg_color_properties ∧
    (updateFGColor (clearDirty (updateFGColor s c)) c).require_update_texture
      = s.overtake_fg_color_properties ∧
    (updateFGAlpha (clearDirty (updateFGAlpha s a)) a).require_update_texture
      = s.overtake_fg_color_properties ∧
    (∀ i : ℤ, 0 ≤ i → i < (s.font_families.length : ℤ) →
      ∃ t, updateFont (clearDirty s) i = some t ∧
        t.require_update_texture = s.overtake_fg_color_properties) ∧
    (∀ i : ℤ, (s.font_families.length : ℤ) ≤ i →
      updateFont (clearDirty s) i = some (clearDirty s)) := by
  refine ⟨?_, ?_, ?_, ?_, ?_, ?_, ?_, ?_, ?_, ?_, ?_, ?_, ?_, ?_⟩
  · by_cases hb : s.align_bottom = b <;> simp [updateAlignBottom, clearDirty, hb]
  · by_cases hb : s.invert_shadow = b <;> simp [updateInvertShadow, clearDirty, hb]
  · cases hf : s.overtake_position_properties <;> simp [updateTop, clearDirty, hf]
  · cases hf : s.overtake_position_properties <;> simp [updateLeft, clearDirty, hf]
  · cases hf : s.overtake_position_properties <;> simp [updateWidth, clearDirty, hf]
  · cases hf : s.overtake_position_properties <;> simp [updateHeight, clearDirty, hf]
  · cases hf : s.overtake_position_properties <;> simp [updateTextSize, clearDirty, hf]
  · cases hf : s.overtake_fg_color_properties <;> simp [updateLineWidth, clearDirty, hf]
  · cases hf : s.overtake_bg_color_properties <;> simp [updateBGColor, clearDirty, hf]
  · cases hf : s.overtake_bg_color_properties <;> simp [updateBGAlpha, clearDirty, hf]
  · cases hf : s.overtake_fg_color_properties <;> simp [updateFGColor, clearDirty, hf]
  · cases hf : s.overtake_fg_color_properties <;> simp [updateFGAlpha, clearDirty, hf]
  · intro i h0 hlt
    have htn : i.toNat < s.font_families.length := by omega
    unfold updateFont qlistAt
    rw [if_pos (by simpa [clearDirty] using hlt)]
    rw [dif_pos (⟨h0, by simpa [clearDirty] using htn⟩ :
          0 ≤ i ∧ i.toNat < (clearDirty s).font_families.length)]
    cases hf : s.overtake_fg_color_properties <;> simp [clearDirty, hf]
  · intro i hge
    unfold updateFont
    rw [if_neg (by simp [clearDirty]; omega)]

/-- C2 witness: the align-bottom conjunct and the in-range font conjunct at
concrete inputs. -/
theorem c2_amended_dirty_on_second_application_witness :
    (updateAlignBottom (clearDirty (updateAlignBottom exBase true)) true).require_update_texture
      = false ∧
    (0 ≤ (0 : ℤ) ∧ (0 : ℤ) < (exBase.font_families.length : ℤ) ∧
      ∃ t, updateFont (clearDirty exBase) 0 = some t ∧
        t.require_update_texture = exBase.overtake_fg_color_properties) :=
  ⟨(c2_amended_dirty_on_second_application exBase 0 true ⟨0, 0, 0, 0⟩ 0).1,
    ⟨by decide, by decide,
      (c2_amended_dirty_on_second_application exBase 0 true ⟨0, 0, 0, 0⟩
          0).2.2.2.2.2.2.2.2.2.2.2.2.1 0 (by decide) (by decide)⟩⟩

/-- C6 counterexample: `-1` is a font index that names no entry of the
installed font-family list, yet the guard `font_index <
font_families_.size()` accepts it and the code performs an out-of-range
`QList` access (modelled as `none`) instead of logging and keeping the
previous font: the claimed behaviour `updateFont exBase (-1) = some exBase`
does not hold. -/
theorem c6_counterexample :
    qlistAt exBase.font_families (-1) = none ∧
    updateFont exBase (-1) = none ∧
    updateFont exBase (-1) ≠ some exBase := by
  refine ⟨?_, ?_, ?_⟩ <;> decide

/-- C6 (amended): for every font index at least the length of the installed
font-family list, `updateFont` takes the error branch: it logs and returns
with the whole state — the stored font family in particular — unchanged, and
it does not even set the dirty flag.  (A negative index is not caught by the
guard and instead reaches an out-of-range list access.) -/
theorem c6_font_index_out_of_range (s : DisplayState) (font_index : ℤ)
    (hge : (s.font_families.length : ℤ) ≤ font_index) :
    updateFont s font_index = some s := by
  unfold updateFont
  rw [if_neg (not_lt.mpr hge)]

/-- C6 witness: index 5 against the single-entry font list. -/
theorem c6_font_index_out_of_range_witness :
    (exBase.font_families.length : ℤ) ≤ 5 ∧ updateFont exBase 5 = some exBase :=
  ⟨by decide, c6_font_index_out_of_range exBase 5 (by decide)⟩

/-- C7: a message color channel `c ∈ [0,1]` is stored as exactly
`⌊c * 255⌋`, which lies in `[0, 255]`.  (The C++ conversion truncates the
`double` product toward zero; for nonnegative values truncation and floor
agree, and the product is exact in `double`.) -/
theorem c7_color_channel_conversion (c : ℚ) (h0 : 0 ≤ c) (h1 : c ≤ 1) :
    msgChannelToInt c = ⌊c * 255⌋ ∧ 0 ≤ msgChannelToInt c ∧ msgChannelToInt c ≤ 255 := by
  have hx0 : (0 : ℚ) ≤ c * 255 := by positivity
  have hnum : 0 ≤ (c * 255).num := Rat.num_nonneg.mpr hx0
  have hden : (0 : ℤ) ≤ ((c * 255).den : ℤ) := Int.ofNat_nonneg _
  have heq : msgChannelToInt c = ⌊c * 255⌋ := by
    unfold msgChannelToInt cppTruncToInt
    rw [Int.tdiv_eq_ediv hnum hden, Rat.floor_def]
  refine ⟨heq, ?_, ?_⟩
  · rw [heq]
    exact Int.floor_nonneg.mpr hx0
  · rw [heq]
    have hle : c * 255 ≤ 255 := by nlinarith
    calc ⌊c * 255⌋ ≤ ⌊(255 : ℚ)⌋ := Int.floor_le_floor hle
      _ = 255 := by norm_num

/-- C7 witness: channel value 1/2 is stored as 127. -/
theorem c7_color_channel_conversion_witness :
    (0 : ℚ) ≤ 1 / 2 ∧ (1 : ℚ) / 2 ≤ 1 ∧
    (msgChannelToInt (1 / 2) = ⌊(1 : ℚ) / 2 * 255⌋ ∧
      0 ≤ msgChannelToInt (1 / 2) ∧ msgChannelToInt (1 / 2) ≤ 255) :=
  ⟨by norm_num, by norm_num,
    c7_color_channel_conversion (1 / 2) (by norm_num) (by norm_num)⟩

end OverlayTextDisplay
